import Mathlib

/-!
Shallow embedding of `src/nrf52-hal-common/src/pwm.rs`, the blocking TWIM-style
transfer driver (named `Pwm` in the source).

The peripheral hardware is modelled by an oracle `Hw` that fixes, for one call,
which awaited event flags the hardware eventually raises and what the two
`amount` registers read back after the transfer.  Each driver operation is
translated into a pure function returning a `RunResult`: the chronological list
of every register access the code performs up to the point where it returns,
together with the returned `Result` — or `none` when an awaited event never
fires, in which case the busy-wait loop in the source never terminates and the
trace stops at the poll that reads zero forever.
-/

namespace Pwm

/-- The error enum from pwm.rs (`pub enum Error`, lines 307-313). -/
inductive Error
  | TxBufferTooLong
  | RxBufferTooLong
  | Transmit
  | Receive
  | DMABufferNotInDataMemory
deriving DecidableEq, Repr

/-- A caller-supplied slice: the address of its backing storage, its length,
and whether that storage lies in DMA-accessible RAM. -/
structure Buffer where
  addr : Nat
  len : Nat
  inRam : Bool
deriving DecidableEq, Repr

/-- Modelled from the spec: `slice_in_ram_or` lives in the crate root, which is
not under src/.  Per the spec's Buffer Validator, the residency check succeeds
exactly when the buffer's backing storage is resolvable to a DMA-accessible
address range, and otherwise returns the supplied error; it performs no
hardware access. -/
def slice_in_ram_or (b : Buffer) (e : Error) : Except Error Unit :=
  if b.inRam then .ok () else .error e

/-- Modelled from the spec: `target_constants::EASY_DMA_SIZE` is not under
src/.  The spec gives a narrow 8-bit transfer-size ceiling (255) on the older
chip variant and a wide one on the newer; this development models the narrow
variant, consistent with the driver's doc comments ("at most 255 bytes"). -/
def EASY_DMA_SIZE : Nat := 255

/-- The registers of the peripheral's register block that pwm.rs touches. -/
inductive Reg
  | address
  | txd_ptr
  | txd_maxcnt
  | txd_amount
  | rxd_ptr
  | rxd_maxcnt
  | rxd_amount
  | tasks_starttx
  | tasks_startrx
  | tasks_stop
  | events_lasttx
  | events_lastrx
  | events_stopped
  | shorts
deriving DecidableEq, Repr

/-- One register access: a write of a value to a register, or a read observing
a value.  A busy-wait poll that succeeds is recorded as a single read of 1;
a poll that never succeeds is recorded as a read of 0 (repeated forever in the
source). -/
inductive Ev
  | wr (r : Reg) (v : Nat)
  | rd (r : Reg) (v : Nat)
deriving DecidableEq, Repr

/-- The hardware oracle for one call: whether each awaited event flag is
eventually raised, and the values the `txd.amount` / `rxd.amount` registers
read back after the transfer. -/
structure Hw where
  lasttxFires : Bool
  lastrxFires : Bool
  stoppedFires : Bool
  txdAmount : Nat
  rxdAmount : Nat
deriving DecidableEq, Repr

instance : DecidableEq (Except Error Unit)
  | .ok (), .ok () => isTrue rfl
  | .error e1, .error e2 =>
    if h : e1 = e2 then isTrue (by rw [h]) else
      isFalse (by intro hh; cases hh; exact h rfl)
  | .ok (), .error _ => isFalse (by intro h; cases h)
  | .error _, .ok () => isFalse (by intro h; cases h)

/-- The outcome of one driver call: the chronological trace of register
accesses performed before returning, and the returned value — `none` when the
call never returns (an awaited event never fires). -/
structure RunResult where
  trace : List Ev
  result : Option (Except Error Unit)
deriving DecidableEq, Repr

/-- Embedding of `Pwm::write` (pwm.rs lines 45-107): residency check, length
check, then address / txd pointer / txd maxcnt programming, the STARTTX
trigger, the LASTTX poll-and-clear, the STOP trigger, the STOPPED
poll-and-clear, and finally the `txd.amount` read-back compared against the
buffer length. -/
def write (hw : Hw) (address : Nat) (buffer : Buffer) : RunResult :=
  match slice_in_ram_or buffer Error.DMABufferNotInDataMemory with
  | .error e => ⟨[], some (.error e)⟩
  | .ok () =>
    if buffer.len > EASY_DMA_SIZE then
      ⟨[], some (.error .TxBufferTooLong)⟩
    else
      let t1 : List Ev :=
        [.wr .address address,
         .wr .txd_ptr buffer.addr,
         .wr .txd_maxcnt buffer.len,
         .wr .tasks_starttx 1]
      if hw.lasttxFires = false then
        ⟨t1 ++ [.rd .events_lasttx 0], none⟩
      else
        let t2 : List Ev := t1 ++
          [.rd .events_lasttx 1,
           .wr .events_lasttx 0,
           .wr .tasks_stop 1]
        if hw.stoppedFires = false then
          ⟨t2 ++ [.rd .events_stopped 0], none⟩
        else
          let t3 : List Ev := t2 ++
            [.rd .events_stopped 1,
             .wr .events_stopped 0,
             .rd .txd_amount hw.txdAmount]
          if hw.txdAmount ≠ buffer.len then
            ⟨t3, some (.error .Transmit)⟩
          else
            ⟨t3, some (.ok ())⟩

/-- Embedding of `Pwm::read` (pwm.rs lines 113-179): no residency check (the
source notes a mutable slice can only be built from RAM), length check, then
address / rxd pointer / rxd maxcnt programming, the STARTRX trigger, the
LASTRX poll-and-clear, the STOP trigger, the STOPPED poll-and-clear, and the
`rxd.amount` read-back compared against the buffer length. -/
def read (hw : Hw) (address : Nat) (buffer : Buffer) : RunResult :=
  if buffer.len > EASY_DMA_SIZE then
    ⟨[], some (.error .RxBufferTooLong)⟩
  else
    let t1 : List Ev :=
      [.wr .address address,
       .wr .rxd_ptr buffer.addr,
       .wr .rxd_maxcnt buffer.len,
       .wr .tasks_startrx 1]
    if hw.lastrxFires = false then
      ⟨t1 ++ [.rd .events_lastrx 0], none⟩
    else
      let t2 : List Ev := t1 ++
        [.rd .events_lastrx 1,
         .wr .events_lastrx 0,
         .wr .tasks_stop 1]
      if hw.stoppedFires = false then
        ⟨t2 ++ [.rd .events_stopped 0], none⟩
      else
        let t3 : List Ev := t2 ++
          [.rd .events_stopped 1,
           .wr .events_stopped 0,
           .rd .rxd_amount hw.rxdAmount]
        if hw.rxdAmount ≠ buffer.len then
          ⟨t3, some (.error .Receive)⟩
        else
          ⟨t3, some (.ok ())⟩

/-- Embedding of `Pwm::write_then_read` (pwm.rs lines 185-286): residency
check on the write buffer only, both length checks, programming of address and
both DMA pointer/maxcnt pairs, enabling of the LASTTX→STARTRX and LASTRX→STOP
shorts (recorded as a write of 3, both bits set), the STARTTX trigger, a
single STOPPED poll, the clears of all three event flags, the shorts reset
(write of 0), then both amount read-backs, with the transmit mismatch checked
before the receive mismatch. -/
def write_then_read (hw : Hw) (address : Nat)
    (wr_buffer rd_buffer : Buffer) : RunResult :=
  match slice_in_ram_or wr_buffer Error.DMABufferNotInDataMemory with
  | .error e => ⟨[], some (.error e)⟩
  | .ok () =>
    if wr_buffer.len > EASY_DMA_SIZE then
      ⟨[], some (.error .TxBufferTooLong)⟩
    else if rd_buffer.len > EASY_DMA_SIZE then
      ⟨[], some (.error .RxBufferTooLong)⟩
    else
      let t1 : List Ev :=
        [.wr .address address,
         .wr .txd_ptr wr_buffer.addr,
         .wr .txd_maxcnt wr_buffer.len,
         .wr .rxd_ptr rd_buffer.addr,
         .wr .rxd_maxcnt rd_buffer.len,
         .wr .shorts 3,
         .wr .tasks_starttx 1]
      if hw.stoppedFires = false then
        ⟨t1 ++ [.rd .events_stopped 0], none⟩
      else
        let t2 : List Ev := t1 ++
          [.rd .events_stopped 1,
           .wr .events_lasttx 0,
           .wr .events_lastrx 0,
           .wr .events_stopped 0,
           .wr .shorts 0,
           .rd .txd_amount hw.txdAmount,
           .rd .rxd_amount hw.rxdAmount]
        if hw.txdAmount ≠ wr_buffer.len then
          ⟨t2, some (.error .Transmit)⟩
        else if hw.rxdAmount ≠ rd_buffer.len then
          ⟨t2, some (.error .Receive)⟩
        else
          ⟨t2, some (.ok ())⟩

/-! ### Branch characterizations

One lemma per control-flow branch of each operation, shared by the claim
theorems below. -/

theorem write_not_in_ram (hw : Hw) (a : Nat) (b : Buffer)
    (h : b.inRam = false) :
    write hw a b = ⟨[], some (.error .DMABufferNotInDataMemory)⟩ := by
  simp [write, slice_in_ram_or, h]

theorem write_too_long (hw : Hw) (a : Nat) (b : Buffer)
    (h1 : b.inRam = true) (h2 : EASY_DMA_SIZE < b.len) :
    write hw a b = ⟨[], some (.error .TxBufferTooLong)⟩ := by
  simp [write, slice_in_ram_or, h1, h2]

theorem write_hang_lasttx (hw : Hw) (a : Nat) (b : Buffer)
    (h1 : b.inRam = true) (h2 : b.len ≤ EASY_DMA_SIZE)
    (h3 : hw.lasttxFires = false) :
    write hw a b =
      ⟨[.wr .address a, .wr .txd_ptr b.addr, .wr .txd_maxcnt b.len,
        .wr .tasks_starttx 1, .rd .events_lasttx 0], none⟩ := by
  have hlen : ¬ b.len > EASY_DMA_SIZE := by omega
  simp [write, slice_in_ram_or, h1, hlen, h3]

theorem write_hang_stopped (hw : Hw) (a : Nat) (b : Buffer)
    (h1 : b.inRam = true) (h2 : b.len ≤ EASY_DMA_SIZE)
    (h3 : hw.lasttxFires = true) (h4 : hw.stoppedFires = false) :
    write hw a b =
      ⟨[.wr .address a, .wr .txd_ptr b.addr, .wr .txd_maxcnt b.len,
        .wr .tasks_starttx 1, .rd .events_lasttx 1, .wr .events_lasttx 0,
        .wr .tasks_stop 1, .rd .events_stopped 0], none⟩ := by
  have hlen : ¬ b.len > EASY_DMA_SIZE := by omega
  simp [write, slice_in_ram_or, h1, hlen, h3, h4]

theorem write_completed (hw : Hw) (a : Nat) (b : Buffer)
    (h1 : b.inRam = true) (h2 : b.len ≤ EASY_DMA_SIZE)
    (h3 : hw.lasttxFires = true) (h4 : hw.stoppedFires = true) :
    write hw a b =
      ⟨[.wr .address a, .wr .txd_ptr b.addr, .wr .txd_maxcnt b.len,
        .wr .tasks_starttx 1, .rd .events_lasttx 1, .wr .events_lasttx 0,
        .wr .tasks_stop 1, .rd .events_stopped 1, .wr .events_stopped 0,
        .rd .txd_amount hw.txdAmount],
       if hw.txdAmount = b.len then some (.ok ()) else
         some (.error .Transmit)⟩ := by
  have hlen : ¬ b.len > EASY_DMA_SIZE := by omega
  by_cases ha : hw.txdAmount = b.len <;>
    simp [write, slice_in_ram_or, h1, hlen, h3, h4, ha]

theorem read_too_long (hw : Hw) (a : Nat) (b : Buffer)
    (h : EASY_DMA_SIZE < b.len) :
    read hw a b = ⟨[], some (.error .RxBufferTooLong)⟩ := by
  simp [read, h]

theorem read_hang_lastrx (hw : Hw) (a : Nat) (b : Buffer)
    (h2 : b.len ≤ EASY_DMA_SIZE) (h3 : hw.lastrxFires = false) :
    read hw a b =
      ⟨[.wr .address a, .wr .rxd_ptr b.addr, .wr .rxd_maxcnt b.len,
        .wr .tasks_startrx 1, .rd .events_lastrx 0], none⟩ := by
  have hlen : ¬ b.len > EASY_DMA_SIZE := by omega
  simp [read, hlen, h3]

theorem read_hang_stopped (hw : Hw) (a : Nat) (b : Buffer)
    (h2 : b.len ≤ EASY_DMA_SIZE) (h3 : hw.lastrxFires = true)
    (h4 : hw.stoppedFires = false) :
    read hw a b =
      ⟨[.wr .address a, .wr .rxd_ptr b.addr, .wr .rxd_maxcnt b.len,
        .wr .tasks_startrx 1, .rd .events_lastrx 1, .wr .events_lastrx 0,
        .wr .tasks_stop 1, .rd .events_stopped 0], none⟩ := by
  have hlen : ¬ b.len > EASY_DMA_SIZE := by omega
  simp [read, hlen, h3, h4]

theorem read_completed (hw : Hw) (a : Nat) (b : Buffer)
    (h2 : b.len ≤ EASY_DMA_SIZE) (h3 : hw.lastrxFires = true)
    (h4 : hw.stoppedFires = true) :
    read hw a b =
      ⟨[.wr .address a, .wr .rxd_ptr b.addr, .wr .rxd_maxcnt b.len,
        .wr .tasks_startrx 1, .rd .events_lastrx 1, .wr .events_lastrx 0,
        .wr .tasks_stop 1, .rd .events_stopped 1, .wr .events_stopped 0,
        .rd .rxd_amount hw.rxdAmount],
       if hw.rxdAmount = b.len then some (.ok ()) else
         some (.error .Receive)⟩ := by
  have hlen : ¬ b.len > EASY_DMA_SIZE := by omega
  by_cases ha : hw.rxdAmount = b.len <;> simp [read, hlen, h3, h4, ha]

theorem wtr_not_in_ram (hw : Hw) (a : Nat) (wb rb : Buffer)
    (h : wb.inRam = false) :
    write_then_read hw a wb rb =
      ⟨[], some (.error .DMABufferNotInDataMemory)⟩ := by
  simp [write_then_read, slice_in_ram_or, h]

theorem wtr_tx_too_long (hw : Hw) (a : Nat) (wb rb : Buffer)
    (h1 : wb.inRam = true) (h2 : EASY_DMA_SIZE < wb.len) :
    write_then_read hw a wb rb = ⟨[], some (.error .TxBufferTooLong)⟩ := by
  simp [write_then_read, slice_in_ram_or, h1, h2]

theorem wtr_rx_too_long (hw : Hw) (a : Nat) (wb rb : Buffer)
    (h1 : wb.inRam = true) (h2 : wb.len ≤ EASY_DMA_SIZE)
    (h3 : EASY_DMA_SIZE < rb.len) :
    write_then_read hw a wb rb = ⟨[], some (.error .RxBufferTooLong)⟩ := by
  have hlen : ¬ wb.len > EASY_DMA_SIZE := by omega
  simp [write_then_read, slice_in_ram_or, h1, hlen, h3]

theorem wtr_hang_stopped (hw : Hw) (a : Nat) (wb rb : Buffer)
    (h1 : wb.inRam = true) (h2 : wb.len ≤ EASY_DMA_SIZE)
    (h3 : rb.len ≤ EASY_DMA_SIZE) (h4 : hw.stoppedFires = false) :
    write_then_read hw a wb rb =
      ⟨[.wr .address a, .wr .txd_ptr wb.addr, .wr .txd_maxcnt wb.len,
        .wr .rxd_ptr rb.addr, .wr .rxd_maxcnt rb.len, .wr .shorts 3,
        .wr .tasks_starttx 1, .rd .events_stopped 0], none⟩ := by
  have hw1 : ¬ wb.len > EASY_DMA_SIZE := by omega
  have hr1 : ¬ rb.len > EASY_DMA_SIZE := by omega
  simp [write_then_read, slice_in_ram_or, h1, hw1, hr1, h4]

theorem wtr_completed (hw : Hw) (a : Nat) (wb rb : Buffer)
    (h1 : wb.inRam = true) (h2 : wb.len ≤ EASY_DMA_SIZE)
    (h3 : rb.len ≤ EASY_DMA_SIZE) (h4 : hw.stoppedFires = true) :
    write_then_read hw a wb rb =
      ⟨[.wr .address a, .wr .txd_ptr wb.addr, .wr .txd_maxcnt wb.len,
        .wr .rxd_ptr rb.addr, .wr .rxd_maxcnt rb.len, .wr .shorts 3,
        .wr .tasks_starttx 1, .rd .events_stopped 1, .wr .events_lasttx 0,
        .wr .events_lastrx 0, .wr .events_stopped 0, .wr .shorts 0,
        .rd .txd_amount hw.txdAmount, .rd .rxd_amount hw.rxdAmount],
       if hw.txdAmount = wb.len then
         (if hw.rxdAmount = rb.len then some (.ok ()) else
           some (.error .Receive))
       else some (.error .Transmit)⟩ := by
  have hw1 : ¬ wb.len > EASY_DMA_SIZE := by omega
  have hr1 : ¬ rb.len > EASY_DMA_SIZE := by omega
  by_cases ha : hw.txdAmount = wb.len <;>
    by_cases hb : hw.rxdAmount = rb.len <;>
      simp [write_then_read, slice_in_ram_or, h1, hw1, hr1, h4, ha, hb]

/-! ### Result characterizations -/

theorem write_ok_iff (hw : Hw) (a : Nat) (b : Buffer) :
    (write hw a b).result = some (.ok ()) ↔
      b.inRam = true ∧ b.len ≤ EASY_DMA_SIZE ∧ hw.lasttxFires = true ∧
      hw.stoppedFires = true ∧ hw.txdAmount = b.len := by
  by_cases hm : b.inRam = true <;>
  by_cases h2 : b.len > EASY_DMA_SIZE <;>
  by_cases h3 : hw.lasttxFires = true <;>
  by_cases h4 : hw.stoppedFires = true <;>
  by_cases ha : hw.txdAmount = b.len <;>
  simp [write, slice_in_ram_or, hm, h2, h3, h4, ha] <;>
  omega

theorem write_error_iff (hw : Hw) (a : Nat) (b : Buffer) (e : Error) :
    (write hw a b).result = some (.error e) ↔
      (b.inRam = false ∧ e = .DMABufferNotInDataMemory) ∨
      (b.inRam = true ∧ EASY_DMA_SIZE < b.len ∧ e = .TxBufferTooLong) ∨
      (b.inRam = true ∧ b.len ≤ EASY_DMA_SIZE ∧ hw.lasttxFires = true ∧
        hw.stoppedFires = true ∧ hw.txdAmount ≠ b.len ∧ e = .Transmit) := by
  cases e <;>
  by_cases hm : b.inRam = true <;>
  by_cases h2 : b.len > EASY_DMA_SIZE <;>
  by_cases h3 : hw.lasttxFires = true <;>
  by_cases h4 : hw.stoppedFires = true <;>
  by_cases ha : hw.txdAmount = b.len <;>
  simp [write, slice_in_ram_or, hm, h2, h3, h4, ha] <;>
  omega

theorem write_none_iff (hw : Hw) (a : Nat) (b : Buffer) :
    (write hw a b).result = none ↔
      b.inRam = true ∧ b.len ≤ EASY_DMA_SIZE ∧
        (hw.lasttxFires = false ∨ hw.stoppedFires = false) := by
  by_cases hm : b.inRam = true <;>
  by_cases h2 : b.len > EASY_DMA_SIZE <;>
  by_cases h3 : hw.lasttxFires = true <;>
  by_cases h4 : hw.stoppedFires = true <;>
  by_cases ha : hw.txdAmount = b.len <;>
  simp [write, slice_in_ram_or, hm, h2, h3, h4, ha] <;>
  omega

theorem read_ok_iff (hw : Hw) (a : Nat) (b : Buffer) :
    (read hw a b).result = some (.ok ()) ↔
      b.len ≤ EASY_DMA_SIZE ∧ hw.lastrxFires = true ∧
      hw.stoppedFires = true ∧ hw.rxdAmount = b.len := by
  by_cases h2 : b.len > EASY_DMA_SIZE <;>
  by_cases h3 : hw.lastrxFires = true <;>
  by_cases h4 : hw.stoppedFires = true <;>
  by_cases ha : hw.rxdAmount = b.len <;>
  simp [read, h2, h3, h4, ha] <;>
  omega

theorem read_error_iff (hw : Hw) (a : Nat) (b : Buffer) (e : Error) :
    (read hw a b).result = some (.error e) ↔
      (EASY_DMA_SIZE < b.len ∧ e = .RxBufferTooLong) ∨
      (b.len ≤ EASY_DMA_SIZE ∧ hw.lastrxFires = true ∧
        hw.stoppedFires = true ∧ hw.rxdAmount ≠ b.len ∧ e = .Receive) := by
  cases e <;>
  by_cases h2 : b.len > EASY_DMA_SIZE <;>
  by_cases h3 : hw.lastrxFires = true <;>
  by_cases h4 : hw.stoppedFires = true <;>
  by_cases ha : hw.rxdAmount = b.len <;>
  simp [read, h2, h3, h4, ha] <;>
  omega

theorem read_none_iff (hw : Hw) (a : Nat) (b : Buffer) :
    (read hw a b).result = none ↔
      b.len ≤ EASY_DMA_SIZE ∧
        (hw.lastrxFires = false ∨ hw.stoppedFires = false) := by
  by_cases h2 : b.len > EASY_DMA_SIZE <;>
  by_cases h3 : hw.lastrxFires = true <;>
  by_cases h4 : hw.stoppedFires = true <;>
  by_cases ha : hw.rxdAmount = b.len <;>
  simp [read, h2, h3, h4, ha] <;>
  omega

theorem wtr_ok_iff (hw : Hw) (a : Nat) (wb rb : Buffer) :
    (write_then_read hw a wb rb).result = some (.ok ()) ↔
      wb.inRam = true ∧ wb.len ≤ EASY_DMA_SIZE ∧ rb.len ≤ EASY_DMA_SIZE ∧
      hw.stoppedFires = true ∧ hw.txdAmount = wb.len ∧
      hw.rxdAmount = rb.len := by
  by_cases hm : wb.inRam = true <;>
  by_cases h2 : wb.len > EASY_DMA_SIZE <;>
  by_cases h3 : rb.len > EASY_DMA_SIZE <;>
  by_cases h4 : hw.stoppedFires = true <;>
  by_cases ha : hw.txdAmount = wb.len <;>
  by_cases hb : hw.rxdAmount = rb.len <;>
  simp [write_then_read, slice_in_ram_or, hm, h2, h3, h4, ha, hb] <;>
  omega

theorem wtr_error_iff (hw : Hw) (a : Nat) (wb rb : Buffer) (e : Error) :
    (write_then_read hw a wb rb).result = some (.error e) ↔
      (wb.inRam = false ∧ e = .DMABufferNotInDataMemory) ∨
      (wb.inRam = true ∧ EASY_DMA_SIZE < wb.len ∧ e = .TxBufferTooLong) ∨
      (wb.inRam = true ∧ wb.len ≤ EASY_DMA_SIZE ∧ EASY_DMA_SIZE < rb.len ∧
        e = .RxBufferTooLong) ∨
      (wb.inRam = true ∧ wb.len ≤ EASY_DMA_SIZE ∧ rb.len ≤ EASY_DMA_SIZE ∧
        hw.stoppedFires = true ∧ hw.txdAmount ≠ wb.len ∧ e = .Transmit) ∨
      (wb.inRam = true ∧ wb.len ≤ EASY_DMA_SIZE ∧ rb.len ≤ EASY_DMA_SIZE ∧
        hw.stoppedFires = true ∧ hw.txdAmount = wb.len ∧
        hw.rxdAmount ≠ rb.len ∧ e = .Receive) := by
  cases e <;>
  by_cases hm : wb.inRam = true <;>
  by_cases h2 : wb.len > EASY_DMA_SIZE <;>
  by_cases h3 : rb.len > EASY_DMA_SIZE <;>
  by_cases h4 : hw.stoppedFires = true <;>
  by_cases ha : hw.txdAmount = wb.len <;>
  by_cases hb : hw.rxdAmount = rb.len <;>
  simp [write_then_read, slice_in_ram_or, hm, h2, h3, h4, ha, hb] <;>
  omega

theorem wtr_none_iff (hw : Hw) (a : Nat) (wb rb : Buffer) :
    (write_then_read hw a wb rb).result = none ↔
      wb.inRam = true ∧ wb.len ≤ EASY_DMA_SIZE ∧ rb.len ≤ EASY_DMA_SIZE ∧
      hw.stoppedFires = false := by
  by_cases hm : wb.inRam = true <;>
  by_cases h2 : wb.len > EASY_DMA_SIZE <;>
  by_cases h3 : rb.len > EASY_DMA_SIZE <;>
  by_cases h4 : hw.stoppedFires = true <;>
  by_cases ha : hw.txdAmount = wb.len <;>
  by_cases hb : hw.rxdAmount = rb.len <;>
  simp [write_then_read, slice_in_ram_or, hm, h2, h3, h4, ha, hb] <;>
  omega

/-! ### Claim theorems -/

/-- C1: every transfer that returns success has its hardware-reported amount
equal to the requested buffer length in every direction exercised (`write`:
txd amount, `read`: rxd amount, `write_then_read`: both), and a post-transfer
mismatch is reported as the Transmit or Receive error kind, never silently
ignored. -/
theorem successful_transfer_amount_matches_request
    (hw : Hw) (a : Nat) (wb rb : Buffer) :
    ((write hw a wb).result = some (.ok ()) → hw.txdAmount = wb.len) ∧
    ((read hw a rb).result = some (.ok ()) → hw.rxdAmount = rb.len) ∧
    ((write_then_read hw a wb rb).result = some (.ok ()) →
      hw.txdAmount = wb.len ∧ hw.rxdAmount = rb.len) ∧
    (wb.inRam = true → wb.len ≤ EASY_DMA_SIZE → hw.lasttxFires = true →
      hw.stoppedFires = true → hw.txdAmount ≠ wb.len →
      (write hw a wb).result = some (.error .Transmit)) ∧
    (rb.len ≤ EASY_DMA_SIZE → hw.lastrxFires = true →
      hw.stoppedFires = true → hw.rxdAmount ≠ rb.len →
      (read hw a rb).result = some (.error .Receive)) := by
  refine ⟨?_, ?_, ?_, ?_, ?_⟩
  · intro h
    exact ((write_ok_iff hw a wb).mp h).2.2.2.2
  · intro h
    exact ((read_ok_iff hw a rb).mp h).2.2.2
  · intro h
    obtain ⟨-, -, -, -, h5, h6⟩ := (wtr_ok_iff hw a wb rb).mp h
    exact ⟨h5, h6⟩
  · intro h1 h2 h3 h4 h5
    exact (write_error_iff hw a wb .Transmit).mpr
      (Or.inr (Or.inr ⟨h1, h2, h3, h4, h5, rfl⟩))
  · intro h1 h2 h3 h4
    exact (read_error_iff hw a rb .Receive).mpr
      (Or.inr ⟨h1, h2, h3, h4, rfl⟩)

/-- Witness for C1 at concrete inputs: a successful 2-byte write reports
amount 2, and a completed transfer whose amount register reads 1 against a
2-byte request yields the Transmit (resp. Receive) error. -/
theorem successful_transfer_amount_matches_request_witness :
    Hw.txdAmount ⟨true, true, true, 2, 2⟩ = Buffer.len ⟨0, 2, true⟩ ∧
    (write ⟨true, true, true, 1, 1⟩ 80 ⟨0, 2, true⟩).result =
      some (.error .Transmit) ∧
    (read ⟨true, true, true, 1, 1⟩ 80 ⟨0, 2, true⟩).result =
      some (.error .Receive) :=
  ⟨(successful_transfer_amount_matches_request
      ⟨true, true, true, 2, 2⟩ 80 ⟨0, 2, true⟩ ⟨0, 2, true⟩).1 (by decide),
   (successful_transfer_amount_matches_request
      ⟨true, true, true, 1, 1⟩ 80 ⟨0, 2, true⟩ ⟨0, 2, true⟩).2.2.2.1
      (by decide) (by decide) (by decide) (by decide) (by decide),
   (successful_transfer_amount_matches_request
      ⟨true, true, true, 1, 1⟩ 80 ⟨0, 2, true⟩ ⟨0, 2, true⟩).2.2.2.2
      (by decide) (by decide) (by decide) (by decide)⟩

/-- C2 counterexample: a 256-byte source buffer that is outside DMA-accessible
memory exceeds the ceiling, yet `write` rejects it with
DMABufferNotInDataMemory (the residency check runs first), not with the
direction-tagged TxBufferTooLong that the claim requires for every over-long
buffer. -/
theorem overlong_nonresident_write_counterexample :
    Buffer.len ⟨0, 256, false⟩ > EASY_DMA_SIZE ∧
    (write ⟨true, true, true, 0, 0⟩ 80 ⟨0, 256, false⟩).result =
      some (.error .DMABufferNotInDataMemory) ∧
    (write ⟨true, true, true, 0, 0⟩ 80 ⟨0, 256, false⟩).result ≠
      some (.error .TxBufferTooLong) := by
  decide

/-- C2 amended: an over-long buffer is rejected with the matching
direction-tagged too-long error and with no register written, provided the
residency check (which runs first on source buffers) passes; and a buffer of
length ≤ EASY_DMA_SIZE never produces a too-long error. -/
theorem buffer_too_long_rejected (hw : Hw) (a : Nat) (wb rb : Buffer) :
    (wb.inRam = true → EASY_DMA_SIZE < wb.len →
      write hw a wb = ⟨[], some (.error .TxBufferTooLong)⟩) ∧
    (EASY_DMA_SIZE < rb.len →
      read hw a rb = ⟨[], some (.error .RxBufferTooLong)⟩) ∧
    (wb.inRam = true → EASY_DMA_SIZE < wb.len →
      write_then_read hw a wb rb = ⟨[], some (.error .TxBufferTooLong)⟩) ∧
    (wb.inRam = true → wb.len ≤ EASY_DMA_SIZE → EASY_DMA_SIZE < rb.len →
      write_then_read hw a wb rb = ⟨[], some (.error .RxBufferTooLong)⟩) ∧
    (wb.len ≤ EASY_DMA_SIZE →
      (write hw a wb).result ≠ some (.error .TxBufferTooLong) ∧
      (write hw a wb).result ≠ some (.error .RxBufferTooLong)) ∧
    (rb.len ≤ EASY_DMA_SIZE →
      (read hw a rb).result ≠ some (.error .RxBufferTooLong) ∧
      (read hw a rb).result ≠ some (.error .TxBufferTooLong)) ∧
    (wb.len ≤ EASY_DMA_SIZE → rb.len ≤ EASY_DMA_SIZE →
      (write_then_read hw a wb rb).result ≠ some (.error .TxBufferTooLong) ∧
      (write_then_read hw a wb rb).result ≠
        some (.error .RxBufferTooLong)) := by
  refine ⟨fun h1 h2 => write_too_long hw a wb h1 h2,
    fun h => read_too_long hw a rb h,
    fun h1 h2 => wtr_tx_too_long hw a wb rb h1 h2,
    fun h1 h2 h3 => wtr_rx_too_long hw a wb rb h1 h2 h3, ?_, ?_, ?_⟩
  · intro h
    constructor
    · intro heq
      rcases (write_error_iff hw a wb .TxBufferTooLong).mp heq with
        ⟨-, hc⟩ | ⟨-, hlt, -⟩ | ⟨-, -, -, -, -, hc⟩
      · exact absurd hc (by decide)
      · omega
      · exact absurd hc (by decide)
    · intro heq
      rcases (write_error_iff hw a wb .RxBufferTooLong).mp heq with
        ⟨-, hc⟩ | ⟨-, -, hc⟩ | ⟨-, -, -, -, -, hc⟩
      · exact absurd hc (by decide)
      · exact absurd hc (by decide)
      · exact absurd hc (by decide)
  · intro h
    constructor
    · intro heq
      rcases (read_error_iff hw a rb .RxBufferTooLong).mp heq with
        ⟨hlt, -⟩ | ⟨-, -, -, -, hc⟩
      · omega
      · exact absurd hc (by decide)
    · intro heq
      rcases (read_error_iff hw a rb .TxBufferTooLong).mp heq with
        ⟨-, hc⟩ | ⟨-, -, -, -, hc⟩
      · exact absurd hc (by decide)
      · exact absurd hc (by decide)
  · intro h1 h2
    constructor
    · intro heq
      rcases (wtr_error_iff hw a wb rb .TxBufferTooLong).mp heq with
        ⟨-, hc⟩ | ⟨-, hlt, -⟩ | ⟨-, -, -, hc⟩ | ⟨-, -, -, -, -, hc⟩ |
        ⟨-, -, -, -, -, -, hc⟩
      · exact absurd hc (by decide)
      · omega
      · exact absurd hc (by decide)
      · exact absurd hc (by decide)
      · exact absurd hc (by decide)
    · intro heq
      rcases (wtr_error_iff hw a wb rb .RxBufferTooLong).mp heq with
        ⟨-, hc⟩ | ⟨-, -, hc⟩ | ⟨-, -, hlt, -⟩ | ⟨-, -, -, -, -, hc⟩ |
        ⟨-, -, -, -, -, -, hc⟩
      · exact absurd hc (by decide)
      · exact absurd hc (by decide)
      · omega
      · exact absurd hc (by decide)
      · exact absurd hc (by decide)

/-- Witness for C2 amended at concrete inputs: a resident 256-byte buffer is
rejected as TxBufferTooLong by `write` (with empty trace) and as
RxBufferTooLong by `read`, and a 2-byte buffer never draws a too-long error
from `write`. -/
theorem buffer_too_long_rejected_witness :
    write ⟨true, true, true, 0, 0⟩ 80 ⟨0, 256, true⟩ =
      ⟨[], some (.error .TxBufferTooLong)⟩ ∧
    read ⟨true, true, true, 0, 0⟩ 80 ⟨0, 256, true⟩ =
      ⟨[], some (.error .RxBufferTooLong)⟩ ∧
    (write ⟨true, true, true, 2, 2⟩ 80 ⟨0, 2, true⟩).result ≠
      some (.error .TxBufferTooLong) :=
  ⟨(buffer_too_long_rejected ⟨true, true, true, 0, 0⟩ 80
      ⟨0, 256, true⟩ ⟨0, 256, true⟩).1 (by decide) (by decide),
   (buffer_too_long_rejected ⟨true, true, true, 0, 0⟩ 80
      ⟨0, 256, true⟩ ⟨0, 256, true⟩).2.1 (by decide),
   ((buffer_too_long_rejected ⟨true, true, true, 2, 2⟩ 80
      ⟨0, 2, true⟩ ⟨0, 2, true⟩).2.2.2.2.1 (by decide)).1⟩

/-- C3: a source buffer outside DMA-accessible data memory makes `write` and
`write_then_read` fail with DMABufferNotInDataMemory before any register is
written (empty trace), while `read` ignores the residency of its destination
buffer entirely (its outcome does not depend on the residency flag and it
never returns DMABufferNotInDataMemory). -/
theorem nonresident_source_rejected (hw : Hw) (a : Nat) (wb rb : Buffer) :
    (wb.inRam = false →
      write hw a wb = ⟨[], some (.error .DMABufferNotInDataMemory)⟩) ∧
    (wb.inRam = false →
      write_then_read hw a wb rb =
        ⟨[], some (.error .DMABufferNotInDataMemory)⟩) ∧
    (∀ r1 r2 : Bool,
      read hw a ⟨rb.addr, rb.len, r1⟩ = read hw a ⟨rb.addr, rb.len, r2⟩) ∧
    ((read hw a rb).result ≠ some (.error .DMABufferNotInDataMemory)) := by
  refine ⟨fun h => write_not_in_ram hw a wb h,
    fun h => wtr_not_in_ram hw a wb rb h, fun r1 r2 => rfl, ?_⟩
  intro heq
  rcases (read_error_iff hw a rb .DMABufferNotInDataMemory).mp heq with
    ⟨-, hc⟩ | ⟨-, -, -, -, hc⟩
  · exact absurd hc (by decide)
  · exact absurd hc (by decide)

/-- Witness for C3 at concrete inputs: a non-resident 2-byte source buffer is
rejected by `write` and `write_then_read` with no register access, and `read`
behaves identically on a destination buffer whatever its residency flag. -/
theorem nonresident_source_rejected_witness :
    write ⟨true, true, true, 2, 2⟩ 80 ⟨0, 2, false⟩ =
      ⟨[], some (.error .DMABufferNotInDataMemory)⟩ ∧
    write_then_read ⟨true, true, true, 2, 2⟩ 80 ⟨0, 2, false⟩ ⟨0, 2, true⟩ =
      ⟨[], some (.error .DMABufferNotInDataMemory)⟩ ∧
    read ⟨true, true, true, 2, 2⟩ 80 ⟨0, 2, false⟩ =
      read ⟨true, true, true, 2, 2⟩ 80 ⟨0, 2, true⟩ :=
  ⟨(nonresident_source_rejected ⟨true, true, true, 2, 2⟩ 80
      ⟨0, 2, false⟩ ⟨0, 2, true⟩).1 (by decide),
   (nonresident_source_rejected ⟨true, true, true, 2, 2⟩ 80
      ⟨0, 2, false⟩ ⟨0, 2, true⟩).2.1 (by decide),
   (nonresident_source_rejected ⟨true, true, true, 2, 2⟩ 80
      ⟨0, 2, true⟩ ⟨0, 2, true⟩).2.2.1 false true⟩

/-- C4: a post-transfer mismatch error (Transmit or Receive) is returned only
after every awaited event flag has been cleared — and for `write_then_read`
only after the shorts register has also been reset — so the clearing writes
always appear in the trace of a call that reports a mismatch. -/
theorem mismatch_error_only_after_cleanup
    (hw : Hw) (a : Nat) (wb rb : Buffer) :
    ((write hw a wb).result = some (.error .Transmit) →
      Ev.wr .events_lasttx 0 ∈ (write hw a wb).trace ∧
      Ev.wr .events_stopped 0 ∈ (write hw a wb).trace) ∧
    ((read hw a rb).result = some (.error .Receive) →
      Ev.wr .events_lastrx 0 ∈ (read hw a rb).trace ∧
      Ev.wr .events_stopped 0 ∈ (read hw a rb).trace) ∧
    (∀ e : Error, e = .Transmit ∨ e = .Receive →
      (write_then_read hw a wb rb).result = some (.error e) →
      Ev.wr .events_lasttx 0 ∈ (write_then_read hw a wb rb).trace ∧
      Ev.wr .events_lastrx 0 ∈ (write_then_read hw a wb rb).trace ∧
      Ev.wr .events_stopped 0 ∈ (write_then_read hw a wb rb).trace ∧
      Ev.wr .shorts 0 ∈ (write_then_read hw a wb rb).trace) := by
  refine ⟨?_, ?_, ?_⟩
  · intro heq
    rcases (write_error_iff hw a wb .Transmit).mp heq with
      ⟨-, hc⟩ | ⟨-, -, hc⟩ | ⟨h1, h2, h3, h4, -, -⟩
    · exact absurd hc (by decide)
    · exact absurd hc (by decide)
    · rw [write_completed hw a wb h1 h2 h3 h4]
      simp
  · intro heq
    rcases (read_error_iff hw a rb .Receive).mp heq with
      ⟨-, hc⟩ | ⟨h2, h3, h4, -, -⟩
    · exact absurd hc (by decide)
    · rw [read_completed hw a rb h2 h3 h4]
      simp
  · intro e he heq
    rcases (wtr_error_iff hw a wb rb e).mp heq with
      ⟨-, hc⟩ | ⟨-, -, hc⟩ | ⟨-, -, -, hc⟩ |
      ⟨h1, h2, h3, h4, -, -⟩ | ⟨h1, h2, h3, h4, -, -, -⟩
    · rcases he with h | h <;> rw [h] at hc <;> exact absurd hc (by decide)
    · rcases he with h | h <;> rw [h] at hc <;> exact absurd hc (by decide)
    · rcases he with h | h <;> rw [h] at hc <;> exact absurd hc (by decide)
    · rw [wtr_completed hw a wb rb h1 h2 h3 h4]
      simp
    · rw [wtr_completed hw a wb rb h1 h2 h3 h4]
      simp

/-- Witness for C4 at a concrete input: a completed 2-byte write whose amount
register reads 1 returns the Transmit error and its trace contains both
event-clearing writes. -/
theorem mismatch_error_only_after_cleanup_witness :
    Ev.wr .events_lasttx 0 ∈
      (write ⟨true, true, true, 1, 1⟩ 80 ⟨0, 2, true⟩).trace ∧
    Ev.wr .events_stopped 0 ∈
      (write ⟨true, true, true, 1, 1⟩ 80 ⟨0, 2, true⟩).trace :=
  (mismatch_error_only_after_cleanup ⟨true, true, true, 1, 1⟩ 80
    ⟨0, 2, true⟩ ⟨0, 2, true⟩).1 (by decide)

/-- C5: when both amount registers mismatch in a completed `write_then_read`,
the single returned error is the Transmit kind (the transmit verification runs
first), and no call ever returns more than one error value. -/
theorem both_mismatch_reports_transmit_first
    (hw : Hw) (a : Nat) (wb rb : Buffer) :
    (wb.inRam = true → wb.len ≤ EASY_DMA_SIZE → rb.len ≤ EASY_DMA_SIZE →
      hw.stoppedFires = true → hw.txdAmount ≠ wb.len →
      hw.rxdAmount ≠ rb.len →
      (write_then_read hw a wb rb).result = some (.error .Transmit)) ∧
    (∀ e1 e2 : Error,
      (write_then_read hw a wb rb).result = some (.error e1) →
      (write_then_read hw a wb rb).result = some (.error e2) → e1 = e2) := by
  constructor
  · intro h1 h2 h3 h4 h5 h6
    exact (wtr_error_iff hw a wb rb .Transmit).mpr
      (Or.inr (Or.inr (Or.inr (Or.inl ⟨h1, h2, h3, h4, h5, rfl⟩))))
  · intro e1 e2 h1 h2
    have h := h1.symm.trans h2
    simpa using h

/-- Witness for C5 at a concrete input: a completed write-then-read whose
amount registers read 1 and 1 against requested lengths 2 and 2 returns
exactly the Transmit error. -/
theorem both_mismatch_reports_transmit_first_witness :
    (write_then_read ⟨true, true, true, 1, 1⟩ 80 ⟨0, 2, true⟩
      ⟨0, 2, true⟩).result = some (.error .Transmit) :=
  (both_mismatch_reports_transmit_first ⟨true, true, true, 1, 1⟩ 80
    ⟨0, 2, true⟩ ⟨0, 2, true⟩).1
    (by decide) (by decide) (by decide) (by decide) (by decide) (by decide)

/-- C6: on a valid input whose awaited events fire, `write` performs exactly
the register sequence of the source: address, txd pointer, txd maxcnt, the
STARTTX trigger value 1, the LASTTX poll and clear, the STOP trigger value 1,
the STOPPED poll and clear, and only then the txd amount read-back. -/
theorem write_follows_register_sequence (hw : Hw) (a : Nat) (b : Buffer)
    (h1 : b.inRam = true) (h2 : b.len ≤ EASY_DMA_SIZE)
    (h3 : hw.lasttxFires = true) (h4 : hw.stoppedFires = true) :
    (write hw a b).trace =
      [.wr .address a, .wr .txd_ptr b.addr, .wr .txd_maxcnt b.len,
       .wr .tasks_starttx 1, .rd .events_lasttx 1, .wr .events_lasttx 0,
       .wr .tasks_stop 1, .rd .events_stopped 1, .wr .events_stopped 0,
       .rd .txd_amount hw.txdAmount] := by
  rw [write_completed hw a b h1 h2 h3 h4]

/-- Witness for C6 at a concrete input: the trace of a successful 2-byte
write is exactly the ten-step register sequence. -/
theorem write_follows_register_sequence_witness :
    (write ⟨true, true, true, 2, 2⟩ 80 ⟨1000, 2, true⟩).trace =
      [.wr .address 80, .wr .txd_ptr 1000, .wr .txd_maxcnt 2,
       .wr .tasks_starttx 1, .rd .events_lasttx 1, .wr .events_lasttx 0,
       .wr .tasks_stop 1, .rd .events_stopped 1, .wr .events_stopped 0,
       .rd .txd_amount 2] :=
  write_follows_register_sequence ⟨true, true, true, 2, 2⟩ 80
    ⟨1000, 2, true⟩ (by decide) (by decide) (by decide) (by decide)

/-- C7: on a valid input `write_then_read` enables both shorts (recorded as
the write of 3 to the shorts register) before the STARTTX trigger, then polls
only the combined STOPPED event, and after completion clears all three event
flags and resets the shorts register before the amount read-backs; moreover,
no call of `write_then_read` ever polls the LASTTX or LASTRX event
registers. -/
theorem wtr_shorts_wiring_and_single_poll
    (hw : Hw) (a : Nat) (wb rb : Buffer) :
    (wb.inRam = true → wb.len ≤ EASY_DMA_SIZE → rb.len ≤ EASY_DMA_SIZE →
      hw.stoppedFires = true →
      (write_then_read hw a wb rb).trace =
        [.wr .address a, .wr .txd_ptr wb.addr, .wr .txd_maxcnt wb.len,
         .wr .rxd_ptr rb.addr, .wr .rxd_maxcnt rb.len, .wr .shorts 3,
         .wr .tasks_starttx 1, .rd .events_stopped 1, .wr .events_lasttx 0,
         .wr .events_lastrx 0, .wr .events_stopped 0, .wr .shorts 0,
         .rd .txd_amount hw.txdAmount, .rd .rxd_amount hw.rxdAmount]) ∧
    (∀ v : Nat,
      Ev.rd .events_lasttx v ∉ (write_then_read hw a wb rb).trace ∧
      Ev.rd .events_lastrx v ∉ (write_then_read hw a wb rb).trace) := by
  constructor
  · intro h1 h2 h3 h4
    rw [wtr_completed hw a wb rb h1 h2 h3 h4]
  · intro v
    by_cases hm : wb.inRam = true <;>
    by_cases h2 : wb.len > EASY_DMA_SIZE <;>
    by_cases h3 : rb.len > EASY_DMA_SIZE <;>
    by_cases h4 : hw.stoppedFires = true <;>
    by_cases ha : hw.txdAmount = wb.len <;>
    by_cases hb : hw.rxdAmount = rb.len <;>
    simp [write_then_read, slice_in_ram_or, hm, h2, h3, h4, ha, hb]

/-- Witness for C7 at a concrete input: the trace of a successful 1-byte
write / 2-byte read combined transfer is exactly the fourteen-step sequence,
with the shorts enabled before STARTTX and a single STOPPED poll. -/
theorem wtr_shorts_wiring_and_single_poll_witness :
    (write_then_read ⟨true, true, true, 1, 2⟩ 80 ⟨7, 1, true⟩
        ⟨9, 2, true⟩).trace =
      [.wr .address 80, .wr .txd_ptr 7, .wr .txd_maxcnt 1,
       .wr .rxd_ptr 9, .wr .rxd_maxcnt 2, .wr .shorts 3,
       .wr .tasks_starttx 1, .rd .events_stopped 1, .wr .events_lasttx 0,
       .wr .events_lastrx 0, .wr .events_stopped 0, .wr .shorts 0,
       .rd .txd_amount 1, .rd .rxd_amount 2] :=
  (wtr_shorts_wiring_and_single_poll ⟨true, true, true, 1, 2⟩ 80
    ⟨7, 1, true⟩ ⟨9, 2, true⟩).1 (by decide) (by decide) (by decide)
    (by decide)

/-- C8: completion waits are unbounded busy-wait polls with no timeout: on a
validated input each operation returns (with success or error) exactly when
every event flag it awaits is eventually raised by the hardware, and it never
returns — modelled as a `none` result — when an awaited event never fires. -/
theorem completion_iff_awaited_events_fire
    (hw : Hw) (a : Nat) (wb rb : Buffer) :
    (wb.inRam = true → wb.len ≤ EASY_DMA_SIZE →
      ((write hw a wb).result.isSome = true ↔
        hw.lasttxFires = true ∧ hw.stoppedFires = true)) ∧
    (rb.len ≤ EASY_DMA_SIZE →
      ((read hw a rb).result.isSome = true ↔
        hw.lastrxFires = true ∧ hw.stoppedFires = true)) ∧
    (wb.inRam = true → wb.len ≤ EASY_DMA_SIZE → rb.len ≤ EASY_DMA_SIZE →
      ((write_then_read hw a wb rb).result.isSome = true ↔
        hw.stoppedFires = true)) := by
  refine ⟨?_, ?_, ?_⟩
  · intro h1 h2
    rw [Option.isSome_iff_ne_none, Ne, write_none_iff]
    cases hl : hw.lasttxFires <;> cases hs : hw.stoppedFires <;>
      simp [h1, h2]
  · intro h2
    rw [Option.isSome_iff_ne_none, Ne, read_none_iff]
    cases hl : hw.lastrxFires <;> cases hs : hw.stoppedFires <;> simp [h2]
  · intro h1 h2 h3
    rw [Option.isSome_iff_ne_none, Ne, wtr_none_iff]
    cases hs : hw.stoppedFires <;> simp [h1, h2, h3]

/-- Witness for C8 at concrete inputs: with a valid 2-byte buffer, `write`
returns when both awaited events fire and does not return when the LASTTX
event never fires. -/
theorem completion_iff_awaited_events_fire_witness :
    ((write ⟨true, true, true, 2, 2⟩ 80 ⟨0, 2, true⟩).result.isSome = true ↔
      (true = true ∧ true = true)) ∧
    ((write ⟨false, true, true, 2, 2⟩ 80 ⟨0, 2, true⟩).result.isSome = true ↔
      (false = true ∧ true = true)) :=
  ⟨(completion_iff_awaited_events_fire ⟨true, true, true, 2, 2⟩ 80
      ⟨0, 2, true⟩ ⟨0, 2, true⟩).1 (by decide) (by decide),
   (completion_iff_awaited_events_fire ⟨false, true, true, 2, 2⟩ 80
      ⟨0, 2, true⟩ ⟨0, 2, true⟩).1 (by decide) (by decide)⟩

/-- C9: error kinds are partitioned by operation: `write` can only return
DMABufferNotInDataMemory, TxBufferTooLong or Transmit; `read` can only return
RxBufferTooLong or Receive; and `write_then_read` can produce all five kinds,
exhibited at five concrete inputs. -/
theorem error_kinds_partitioned (hw : Hw) (a : Nat) (wb rb : Buffer) :
    (∀ e : Error, (write hw a wb).result = some (.error e) →
      e = .DMABufferNotInDataMemory ∨ e = .TxBufferTooLong ∨
        e = .Transmit) ∧
    (∀ e : Error, (read hw a rb).result = some (.error e) →
      e = .RxBufferTooLong ∨ e = .Receive) ∧
    (write_then_read ⟨true, true, true, 0, 0⟩ 80 ⟨0, 1, false⟩
      ⟨0, 0, true⟩).result = some (.error .DMABufferNotInDataMemory) ∧
    (write_then_read ⟨true, true, true, 0, 0⟩ 80 ⟨0, 256, true⟩
      ⟨0, 0, true⟩).result = some (.error .TxBufferTooLong) ∧
    (write_then_read ⟨true, true, true, 0, 0⟩ 80 ⟨0, 0, true⟩
      ⟨0, 256, true⟩).result = some (.error .RxBufferTooLong) ∧
    (write_then_read ⟨true, true, true, 5, 0⟩ 80 ⟨0, 1, true⟩
      ⟨0, 0, true⟩).result = some (.error .Transmit) ∧
    (write_then_read ⟨true, true, true, 1, 5⟩ 80 ⟨0, 1, true⟩
      ⟨0, 0, true⟩).result = some (.error .Receive) := by
  refine ⟨?_, ?_, by decide, by decide, by decide, by decide, by decide⟩
  · intro e h
    rcases (write_error_iff hw a wb e).mp h with
      ⟨-, hc⟩ | ⟨-, -, hc⟩ | ⟨-, -, -, -, -, hc⟩ <;> tauto
  · intro e h
    rcases (read_error_iff hw a rb e).mp h with
      ⟨-, hc⟩ | ⟨-, -, -, -, hc⟩ <;> tauto

/-- Witness for C9 at a concrete input: the Transmit error actually returned
by a completed mismatching `write` falls in `write`'s allowed kinds. -/
theorem error_kinds_partitioned_witness :
    Error.Transmit = .DMABufferNotInDataMemory ∨
    Error.Transmit = .TxBufferTooLong ∨ Error.Transmit = .Transmit :=
  (error_kinds_partitioned ⟨true, true, true, 1, 1⟩ 80
    ⟨0, 2, true⟩ ⟨0, 2, true⟩).1 .Transmit (by decide)

/-- C10 counterexample: the zero-length buffer at address 0 whose backing
storage is outside DMA-accessible memory is rejected by `write`'s residency
check with DMABufferNotInDataMemory and an empty trace, so a zero-length
buffer is not always accepted by validation as the claim states. -/
theorem empty_nonresident_buffer_rejected_counterexample :
    Buffer.len ⟨0, 0, false⟩ = 0 ∧
    write ⟨true, true, true, 0, 0⟩ 80 ⟨0, 0, false⟩ =
      ⟨[], some (.error .DMABufferNotInDataMemory)⟩ := by
  decide

/-- C10 amended: a zero-length buffer is never rejected by the length check
(`read`'s validation always passes; `write`'s still applies its residency
check first), and on a zero-length buffer that passes validation, when the
awaited events fire, the full register sequence executes with a DMA count of
0 and the call succeeds exactly when the amount register reads back 0. -/
theorem empty_buffer_validation (hw : Hw) (a : Nat) (b : Buffer)
    (h0 : b.len = 0) :
    ((read hw a b).result ≠ some (.error .RxBufferTooLong) ∧
      (read hw a b).result ≠ some (.error .DMABufferNotInDataMemory)) ∧
    (b.inRam = true →
      (write hw a b).result ≠ some (.error .TxBufferTooLong) ∧
      (write hw a b).result ≠ some (.error .DMABufferNotInDataMemory)) ∧
    (b.inRam = true → hw.lasttxFires = true → hw.stoppedFires = true →
      Ev.wr .txd_maxcnt 0 ∈ (write hw a b).trace ∧
      ((write hw a b).result = some (.ok ()) ↔ hw.txdAmount = 0)) ∧
    (hw.lastrxFires = true → hw.stoppedFires = true →
      Ev.wr .rxd_maxcnt 0 ∈ (read hw a b).trace ∧
      ((read hw a b).result = some (.ok ()) ↔ hw.rxdAmount = 0)) := by
  have hle : b.len ≤ EASY_DMA_SIZE := by omega
  refine ⟨⟨?_, ?_⟩, ?_, ?_, ?_⟩
  · intro heq
    rcases (read_error_iff hw a b .RxBufferTooLong).mp heq with
      ⟨hlt, -⟩ | ⟨-, -, -, -, hc⟩
    · omega
    · exact absurd hc (by decide)
  · intro heq
    rcases (read_error_iff hw a b .DMABufferNotInDataMemory).mp heq with
      ⟨-, hc⟩ | ⟨-, -, -, -, hc⟩ <;> exact absurd hc (by decide)
  · intro h1
    constructor
    · intro heq
      rcases (write_error_iff hw a b .TxBufferTooLong).mp heq with
        ⟨-, hc⟩ | ⟨-, hlt, -⟩ | ⟨-, -, -, -, -, hc⟩
      · exact absurd hc (by decide)
      · omega
      · exact absurd hc (by decide)
    · intro heq
      rcases (write_error_iff hw a b .DMABufferNotInDataMemory).mp heq with
        ⟨hm, -⟩ | ⟨-, -, hc⟩ | ⟨-, -, -, -, -, hc⟩
      · rw [h1] at hm
        exact absurd hm (by decide)
      · exact absurd hc (by decide)
      · exact absurd hc (by decide)
  · intro h1 h3 h4
    constructor
    · rw [write_completed hw a b h1 hle h3 h4, h0]
      simp
    · rw [write_ok_iff]
      simp [h1, hle, h3, h4, h0]
  · intro h3 h4
    constructor
    · rw [read_completed hw a b hle h3 h4, h0]
      simp
    · rw [read_ok_iff]
      simp [hle, h3, h4, h0]

/-- Witness for C10 amended at a concrete input: a zero-length resident
buffer passes validation, its write trace programs a DMA count of 0, and the
call succeeds since the amount register reads back 0. -/
theorem empty_buffer_validation_witness :
    Ev.wr .txd_maxcnt 0 ∈
      (write ⟨true, true, true, 0, 0⟩ 80 ⟨0, 0, true⟩).trace ∧
    ((write ⟨true, true, true, 0, 0⟩ 80 ⟨0, 0, true⟩).result =
      some (.ok ()) ↔ Hw.txdAmount ⟨true, true, true, 0, 0⟩ = 0) :=
  (empty_buffer_validation ⟨true, true, true, 0, 0⟩ 80 ⟨0, 0, true⟩
    (by decide)).2.2.1 (by decide) (by decide) (by decide)

end Pwm
